import Mathlib

/-!
Shallow embedding of `osm_export_tool/sources.py`: the four backend
tag-filter compilers (`OsmiumTool`, `Overpass`, `Galaxy`, `Hootenanny`)
and the extraction sources' `path()` caching/dispatch logic.

Conventions of the embedding:
* A Python prefix tuple `('=', key, value)` etc. is the inductive `Expr`.
* Python exceptions are `Except` errors (the `ValueError` raised by
  `OsmiumTool.parts` keeps its message text); a Python function body that
  falls through every `if` and returns `None` is `Option.none` (for
  `Galaxy.parts` on `'!='`); combining such a `None` with `+` in the
  recursive `and`/`or` case raises `TypeError` in Python, which the
  `Option` bind models as `none` as well.
* Python `dict` (insertion ordered) is an association list `TagDict`;
  updating an existing key keeps its position, a new key is appended,
  and Python's order-insensitive `dict ==` is `pyDictEq`.
* Python `set` is `Finset String`.
* Subprocess/HTTP side effects are recorded as explicit events or
  invocation counts; the filesystem is a predicate `isfile`.
* `geom.area` (a Python float compared against the literal `6e4`, which
  is exactly 60000) is modelled as `ℚ`.
-/

deriving instance DecidableEq for Except

namespace OsmExport

/-- The relational comparison operators `<`, `>`, `<=`, `>=`. -/
inductive CmpOp
  | lt
  | gt
  | le
  | ge
deriving DecidableEq, Repr

/-- The operator token as it appears in the prefix tuple (`prefix[0]`). -/
def CmpOp.token : CmpOp → String
  | .lt => "<"
  | .gt => ">"
  | .le => "<="
  | .ge => ">="

/-- The 6-variant prefix-expression AST consumed by every compiler
(`Theme.matcher.expr` in the source). `Comparison` is value-less: every
compiler reads only `prefix[1]` (the key) for the relational operators. -/
inductive Expr
  | eq (key value : String)
  | ne (key value : String)
  | cmp (op : CmpOp) (key : String)
  | notnull (key : String)
  | inn (key : String) (values : List String)
  | and (a b : Expr)
  | or (a b : Expr)
deriving DecidableEq, Repr

/-- One theme of a mapping: name, enabled element kinds, attribute keys
and the matcher expression (`t.matcher.expr` flattened into `matcher`). -/
structure Theme where
  name : String
  points : Bool
  lines : Bool
  polygons : Bool
  keys : List String
  matcher : Expr
deriving DecidableEq, Repr

/-- A mapping: the ordered sequence of themes (`mapping.themes`). -/
structure Mapping where
  themes : List Theme
deriving DecidableEq, Repr

namespace OsmiumTool

/-- `OsmiumTool.parts`: compile one expression to osmium `tags-filter`
fragments. `<`, `>`, `<=`, `>=` and `notnull` raise
`ValueError('{0} where clause not supported')`. -/
def parts : Expr → Except String (List String)
  | .eq k v => .ok [k ++ "=" ++ v]
  | .ne k v => .ok [k ++ "!=" ++ v]
  | .cmp op _ => .error (op.token ++ " where clause not supported")
  | .notnull _ => .error ("notnull where clause not supported")
  | .inn k vs => .ok [k ++ "=" ++ String.intercalate "," vs]
  | .and a b => do pure ((← parts a) ++ (← parts b))
  | .or a b => do pure ((← parts a) ++ (← parts b))

/-- `OsmiumTool.get_element_filter`: prefix a fragment with the element
kinds enabled on the theme (`n/` for points, `w/` for lines, `r/` for
polygons). -/
def get_element_filter (theme : Theme) (part : String) : List String :=
  (if theme.points then ["n/" ++ part] else []) ++
    (if theme.lines then ["w/" ++ part] else []) ++
      (if theme.polygons then ["r/" ++ part] else [])

/-- `OsmiumTool.filters`: union the element filters of every theme into
one set (`filters_set`). The Python body also accumulates a local `tags`
set, but only `filters_set` is returned, so the dead accumulator is not
modelled. A `ValueError` from `parts` propagates. -/
def filters (mapping : Mapping) : Except String (Finset String) :=
  mapping.themes.foldlM
    (fun filters_set t => do
      let ps ← parts t.matcher
      pure (filters_set ∪ (ps.flatMap (fun part => get_element_filter t part)).toFinset))
    (∅ : Finset String)

/-- The configuration of one `OsmiumTool` source. `area` stands for
`self.geom.area`; `osmium_path`/`tempdir` are command plumbing with no
bearing on control flow and are omitted. -/
structure Src where
  source_path : String
  output_path : String
  area : ℚ
  use_existing : Bool
  mapping : Option Mapping
deriving DecidableEq

/-- The input path `tags_filter` reads: `source_path = self.output_path`,
overridden to `self.source_path` when `planet_as_source` is true. -/
def tags_filter_source (s : Src) (planet_as_source : Bool) : String :=
  if planet_as_source then s.source_path else s.output_path

/-- One backend subprocess invocation made by `OsmiumTool.path`:
`osmium extract` (inside `fetch`) or `osmium tags-filter` with its input
file and filter set. -/
inductive Event
  | extract
  | tags_filter (input : String) (filters_set : Finset String)
deriving DecidableEq

/-- `OsmiumTool.path`: return the cached artifact when it exists and
`use_existing` is set; otherwise clip first only when `geom.area < 6e4`
(setting `planet_as_source` to false), then, when a mapping is
configured, run `tags-filter` over the compiled filters. The returned
trace lists the subprocess invocations in order. -/
def path (s : Src) (isfile : String → Bool) : Except String (List Event × String) :=
  if isfile s.output_path && s.use_existing then
    .ok ([], s.output_path)
  else
    let clip := s.area < 60000
    let fetch_events : List Event := if clip then [.extract] else []
    let planet_as_source := !clip
    match s.mapping with
    | none => .ok (fetch_events, s.output_path)
    | some m => do
        let fl ← filters m
        pure (fetch_events ++ [.tags_filter (tags_filter_source s planet_as_source) fl],
          s.output_path)

end OsmiumTool

namespace Overpass

/-- `Overpass.parts`: compile one expression to Overpass-QL bracket
fragments, single-quoting keys and values. -/
def parts : Expr → List String
  | .eq k v => ["['" ++ k ++ "'='" ++ v ++ "']"]
  | .ne k v => ["['" ++ k ++ "'!='" ++ v ++ "']"]
  | .cmp _ k => ["['" ++ k ++ "']"]
  | .notnull k => ["['" ++ k ++ "']"]
  | .inn k vs => ["['" ++ k ++ "'~'" ++ String.intercalate "|" vs ++ "']"]
  | .and a b => parts a ++ parts b
  | .or a b => parts a ++ parts b

/-- The per-theme step of `Overpass.filters`: add the theme's parts to
`nodes` when it has points, to `ways` when it has lines, and to both
`ways` and `relations` when it has polygons. -/
def filtersStep (acc : Finset String × Finset String × Finset String) (t : Theme) :
    Finset String × Finset String × Finset String :=
  let ps := (parts t.matcher).toFinset
  let acc := if t.points then (acc.1 ∪ ps, acc.2.1, acc.2.2) else acc
  let acc := if t.lines then (acc.1, acc.2.1 ∪ ps, acc.2.2) else acc
  if t.polygons then (acc.1, acc.2.1 ∪ ps, acc.2.2 ∪ ps) else acc

/-- `Overpass.filters`: the `(nodes, ways, relations)` fragment sets
accumulated over all themes. -/
def filters (mapping : Mapping) : Finset String × Finset String × Finset String :=
  mapping.themes.foldl filtersStep (∅, ∅, ∅)

/-- The configuration of one `Overpass` source; `out_path` stands for
`self._path`. Hostname, converter path, curl flag and tempdir only feed
the I/O plumbing inside `fetch` and are omitted. -/
structure Src where
  hostname : String
  out_path : String
  use_existing : Bool
deriving DecidableEq

/-- `Overpass.path`: return the cached artifact when it exists and
`use_existing` is set, else run `fetch` once. The `Nat` counts `fetch`
invocations. -/
def path (s : Src) (isfile : String → Bool) : Nat × String :=
  if isfile s.out_path && s.use_existing then (0, s.out_path)
  else (1, s.out_path)

end Overpass

namespace Hootenanny

/-- `Hootenanny.parts`: textually identical to `Overpass.parts`. -/
def parts : Expr → List String
  | .eq k v => ["['" ++ k ++ "'='" ++ v ++ "']"]
  | .ne k v => ["['" ++ k ++ "'!='" ++ v ++ "']"]
  | .cmp _ k => ["['" ++ k ++ "']"]
  | .notnull k => ["['" ++ k ++ "']"]
  | .inn k vs => ["['" ++ k ++ "'~'" ++ String.intercalate "|" vs ++ "']"]
  | .and a b => parts a ++ parts b
  | .or a b => parts a ++ parts b

/-- The per-theme step of `Hootenanny.filters`, textually identical to
`Overpass.filtersStep`. -/
def filtersStep (acc : Finset String × Finset String × Finset String) (t : Theme) :
    Finset String × Finset String × Finset String :=
  let ps := (parts t.matcher).toFinset
  let acc := if t.points then (acc.1 ∪ ps, acc.2.1, acc.2.2) else acc
  let acc := if t.lines then (acc.1, acc.2.1 ∪ ps, acc.2.2) else acc
  if t.polygons then (acc.1, acc.2.1 ∪ ps, acc.2.2 ∪ ps) else acc

/-- `Hootenanny.filters`: the `(nodes, ways, relations)` fragment sets. -/
def filters (mapping : Mapping) : Finset String × Finset String × Finset String :=
  mapping.themes.foldl filtersStep (∅, ∅, ∅)

/-- The configuration of one `Hootenanny` source; `out_path` stands for
`self._path`. -/
structure Src where
  hostname : String
  out_path : String
  use_existing : Bool
deriving DecidableEq

/-- `Hootenanny.path`: cached-artifact short circuit, else one `fetch`. -/
def path (s : Src) (isfile : String → Bool) : Nat × String :=
  if isfile s.out_path && s.use_existing then (0, s.out_path)
  else (1, s.out_path)

end Hootenanny

namespace OsmExpress

/-- The configuration of one `OsmExpress` source. -/
structure Src where
  osmx_path : String
  db_path : String
  output_path : String
  use_existing : Bool
deriving DecidableEq

/-- `OsmExpress.path`: cached-artifact short circuit, else one `fetch`
(a single `osmx extract` subprocess). -/
def path (s : Src) (isfile : String → Bool) : Nat × String :=
  if isfile s.output_path && s.use_existing then (0, s.output_path)
  else (1, s.output_path)

end OsmExpress

/-- A Python `dict` mapping tag keys to value lists, as an insertion
ordered association list: updating an existing key keeps its position,
a new key is appended at the end. -/
abbrev TagDict := List (String × List String)

/-- Write `kv` into the dict: replace the value of an existing key in
place, or append a new binding. -/
def dictSet : TagDict → String → List String → TagDict
  | [], k, v => [(k, v)]
  | (k', v') :: rest, k, v =>
      if k' = k then (k, v) :: rest else (k', v') :: dictSet rest k v

/-- Python's order-insensitive `dict ==` on two (duplicate-free) dicts:
each binding of one is a binding of the other. -/
def pyDictEq (a b : TagDict) : Bool :=
  a.all (fun kv => b.lookup kv.1 = some kv.2) && b.all (fun kv => a.lookup kv.1 = some kv.2)

/-- Python's `list(dict.fromkeys(value))`: drop duplicates keeping the
first occurrence of each element, in order. -/
def pyDedup (l : List String) : List String :=
  l.foldl (fun acc x => if x ∈ acc then acc else acc ++ [x]) []

namespace Galaxy

/-- The value list `json.loads` recovers from the `'in'` fragment
`"key":["v1 "," v2"]` built by joining the values with `' "," '`: the
first value gains a trailing blank, middle values both a leading and a
trailing blank, the last a leading blank (a single value is untouched,
an empty value list parses to one empty string). -/
def inValuesTail : List String → List String
  | [] => []
  | [v] => [" " ++ v]
  | v :: vs => (" " ++ v ++ " ") :: inValuesTail vs

/-- See `inValuesTail`: the whole parsed value list of an `'in'` part. -/
def inValues : List String → List String
  | [] => [""]
  | [v] => [v]
  | v :: vs => (v ++ " ") :: inValuesTail vs

/-- `Galaxy.parts`: compile one expression to JSON filter fragments.
Each fragment string (for instance ` "key":["value"] `) is later
`json.loads`-ed by the filter aggregation into exactly one key/value
pair, so the pair is the model of the fragment. The `'!='` branch is
`pass` — the function then falls through every remaining `if` and
returns Python `None`, modelled as `Option.none`; the recursive
`and`/`or` case would then raise `TypeError` on `None + list`, which the
`Option` bind also collapses to `none`. -/
def parts : Expr → Option (List (String × List String))
  | .eq k v => some [(k, [v])]
  | .ne _ _ => none
  | .cmp _ k => some [(k, [])]
  | .notnull k => some [(k, [])]
  | .inn k vs => some [(k, inValues vs)]
  | .and a b => do pure ((← parts a) ++ (← parts b))
  | .or a b => do pure ((← parts a) ++ (← parts b))

/-- `Galaxy.attribute_filter`: `list(theme.keys)`. -/
def attribute_filter (theme : Theme) : List String := theme.keys

/-- `Galaxy.remove_duplicates`: dedup every value list of the dict in
place. -/
def remove_duplicates (entries_dict : TagDict) : TagDict :=
  entries_dict.map (fun kv => (kv.1, pyDedup kv.2))

/-- The point/line dict update of `Galaxy.filters`: a new key is
inserted, an existing key has the incoming values appended (`+=`). -/
def point_update (d : TagDict) (kv : String × List String) : TagDict :=
  match d.lookup kv.1 with
  | none => dictSet d kv.1 kv.2
  | some old => dictSet d kv.1 (old ++ kv.2)

/-- The polygon dict update of `Galaxy.filters`: a new key is inserted;
for an existing key whose current value is not `[]`, an incoming `[]`
(the `notnull` wildcard) wipes the accumulated values, any other
incoming value is appended; once the value is `[]` the binding is left
untouched. -/
def poly_update (d : TagDict) (kv : String × List String) : TagDict :=
  match d.lookup kv.1 with
  | none => dictSet d kv.1 kv.2
  | some old =>
      if old ≠ [] then
        if kv.2 = [] then dictSet d kv.1 []
        else dictSet d kv.1 (old ++ kv.2)
      else d

/-- The accumulator of `Galaxy.filters`: the geometry-type list, the
three per-kind filter dicts and the three per-kind column lists. -/
structure FilterAcc where
  geometryType : List String
  point_filter : TagDict
  line_filter : TagDict
  poly_filter : TagDict
  point_columns : List String
  line_columns : List String
  poly_columns : List String
deriving DecidableEq, Repr

/-- One theme's contribution in `Galaxy.filters`. `parts` is computed
once up front; a `None` parts value only fails (Python `TypeError`) when
some enabled kind actually iterates it, so a theme with no enabled kind
leaves the accumulator unchanged even then. Each kind overwrites its
column list (`point_columns = attribute_filter(t)` — last theme of that
kind wins), appends its geometry type, and folds the theme's key/value
pairs into its filter dict (`point_update` for points and lines,
`poly_update` for polygons). -/
def filtersStep (acc : FilterAcc) (t : Theme) : Option FilterAcc := do
  let ps? := parts t.matcher
  let acc ← if t.points then do
      let ps ← ps?
      pure { acc with
        point_columns := attribute_filter t,
        geometryType := acc.geometryType ++ ["point"],
        point_filter := ps.foldl point_update acc.point_filter }
    else pure acc
  let acc ← if t.lines then do
      let ps ← ps?
      pure { acc with
        line_columns := attribute_filter t,
        geometryType := acc.geometryType ++ ["line"],
        line_filter := ps.foldl point_update acc.line_filter }
    else pure acc
  if t.polygons then do
      let ps ← ps?
      pure { acc with
        poly_columns := attribute_filter t,
        geometryType := acc.geometryType ++ ["polygon"],
        poly_filter := ps.foldl poly_update acc.poly_filter }
    else pure acc

/-- `Galaxy.filters`: fold all themes, then dedup each nonempty filter
dict (`if point_filter: point_filter = remove_duplicates(point_filter)`
and likewise for the other two). -/
def filters (mapping : Mapping) : Option FilterAcc := do
  let acc ← mapping.themes.foldlM filtersStep ⟨[], [], [], [], [], [], []⟩
  pure { acc with
    point_filter :=
      if acc.point_filter = [] then acc.point_filter else remove_duplicates acc.point_filter,
    line_filter :=
      if acc.line_filter = [] then acc.line_filter else remove_duplicates acc.line_filter,
    poly_filter :=
      if acc.poly_filter = [] then acc.poly_filter else remove_duplicates acc.poly_filter }

/-- The `filters.tags` payload of the request body: one master
`all_geometry` filter, or three per-kind filters. -/
inductive TagsPayload
  | all_geometry (f : TagDict)
  | per_kind (point line polygon : TagDict)
deriving DecidableEq, Repr

/-- The `filters.attributes` payload of the request body: one master
`all_geometry` column list, or three per-kind column lists. -/
inductive AttrsPayload
  | all_geometry (c : List String)
  | per_kind (point line polygon : List String)
deriving DecidableEq, Repr

/-- The non-HDX request body of `Galaxy.fetch` (geometry and headers are
I/O plumbing and omitted). `osmTags` is the top-level `"osmTags"` key
the source includes only in the master-filter-without-columns branch. -/
structure RequestBody where
  fileName : String
  outputType : String
  geometryType : List String
  osmTags : Option TagDict
  tags : TagsPayload
  attributes : AttrsPayload
deriving DecidableEq, Repr

/-- Lines 467-488 of `Galaxy.fetch`: `osmTags` is the point filter when
the three filter dicts compare `==` pairwise, else `{}`; `columns` is
the point column list when the three column lists compare `==` pairwise,
else `[]`; then Python truthiness (`if osmTags:` / `if columns:`) picks
between the `all_geometry` and the per-kind payloads. -/
def request_body (fileName outputType : String) (geometryType : List String)
    (point_filter line_filter poly_filter : TagDict)
    (point_columns line_columns poly_columns : List String) : RequestBody :=
  let osmTags :=
    if pyDictEq point_filter line_filter && pyDictEq line_filter poly_filter then point_filter
    else []
  let columns :=
    if point_columns = line_columns ∧ line_columns = poly_columns then point_columns
    else []
  if osmTags ≠ [] then
    if columns ≠ [] then
      ⟨fileName, outputType, geometryType, none, .all_geometry osmTags, .all_geometry columns⟩
    else
      ⟨fileName, outputType, geometryType, some osmTags, .all_geometry osmTags,
        .per_kind point_columns line_columns poly_columns⟩
  else
    if columns ≠ [] then
      ⟨fileName, outputType, geometryType, none,
        .per_kind point_filter line_filter poly_filter, .all_geometry columns⟩
    else
      ⟨fileName, outputType, geometryType, none,
        .per_kind point_filter line_filter poly_filter,
        .per_kind point_columns line_columns poly_columns⟩

/-- The failures the non-HDX `Galaxy.fetch` can hit before any request
is sent: reading `osmTags`/`columns` before assignment when
`self.mapping` is `None` (Python `NameError`), or iterating the `None`
returned by `Galaxy.parts` (Python `TypeError`). -/
inductive FetchError
  | nameError
  | typeError
deriving DecidableEq, Repr

/-- The configuration of one `Galaxy` source. -/
structure Src where
  hostname : String
  mapping : Option Mapping
  file_name : String
deriving DecidableEq

/-- The non-HDX request-body construction of `Galaxy.fetch` (lines
465-488): with a mapping, aggregate the filters and build the body; with
`self.mapping` falsy only `geometryType_filter` is assigned, so the
body construction reads the unassigned names `osmTags` and `columns` —
a `NameError`. -/
def fetch_request_body (g : Src) (output_format : String) : Except FetchError RequestBody :=
  match g.mapping with
  | none => .error .nameError
  | some m =>
      match filters m with
      | none => .error .typeError
      | some acc =>
          .ok (request_body g.file_name output_format acc.geometryType
            acc.point_filter acc.line_filter acc.poly_filter
            acc.point_columns acc.line_columns acc.poly_columns)

end Galaxy

/-- A theme whose matcher is a single `Equals(k, v)` and whose key list
is `[k]`, used for concrete witnesses and counterexamples. -/
def themeEq (pts lns pgs : Bool) (k v : String) : Theme :=
  ⟨"t", pts, lns, pgs, [k], .eq k v⟩

/-- A theme whose matcher is a single `NotNull(k)` and whose key list is
`[k]`, used for concrete witnesses and counterexamples. -/
def themeNotNull (pts lns pgs : Bool) (k : String) : Theme :=
  ⟨"t", pts, lns, pgs, [k], .notnull k⟩

section Lemmas

/-- Two strings with distinct two-character prefixes stay distinct after
appending the same suffix. -/
lemma append_ne_of_prefix_ne (c₁ c₂ : Char) (h : c₁ ≠ c₂) (u v : String)
    (hu : u.data = [c₁, '/']) (hv : v.data = [c₂, '/']) (s : String) : u ++ s ≠ v ++ s := by
  intro he
  have h2 := congrArg String.data he
  rw [String.data_append, String.data_append, hu, hv] at h2
  simp at h2
  exact h h2

/-- Each step of the Overpass per-theme fold only grows the three sets. -/
lemma overpass_filtersStep_subset (acc : Finset String × Finset String × Finset String)
    (t : Theme) :
    acc.1 ⊆ (Overpass.filtersStep acc t).1 ∧ acc.2.1 ⊆ (Overpass.filtersStep acc t).2.1 ∧
      acc.2.2 ⊆ (Overpass.filtersStep acc t).2.2 := by
  rcases acc with ⟨a, b, c⟩
  unfold Overpass.filtersStep
  cases t.points <;> cases t.lines <;> cases t.polygons <;>
    simp [Finset.subset_union_left]

/-- The Overpass fold over a theme list only grows the three sets. -/
lemma overpass_foldl_subset (l : List Theme)
    (acc : Finset String × Finset String × Finset String) :
    acc.1 ⊆ (l.foldl Overpass.filtersStep acc).1 ∧
      acc.2.1 ⊆ (l.foldl Overpass.filtersStep acc).2.1 ∧
        acc.2.2 ⊆ (l.foldl Overpass.filtersStep acc).2.2 := by
  induction l generalizing acc with
  | nil => exact ⟨Finset.Subset.refl _, Finset.Subset.refl _, Finset.Subset.refl _⟩
  | cons t ts ih =>
      have h1 := overpass_filtersStep_subset acc t
      have h2 := ih (Overpass.filtersStep acc t)
      simpa using ⟨h1.1.trans h2.1, h1.2.1.trans h2.2.1, h1.2.2.trans h2.2.2⟩

/-- A polygon theme's parts land in both `ways` and `relations` at its
own fold step. -/
lemma overpass_filtersStep_poly_subset (acc : Finset String × Finset String × Finset String)
    (t : Theme) (hp : t.polygons = true) :
    (Overpass.parts t.matcher).toFinset ⊆ (Overpass.filtersStep acc t).2.1 ∧
      (Overpass.parts t.matcher).toFinset ⊆ (Overpass.filtersStep acc t).2.2 := by
  rcases acc with ⟨a, b, c⟩
  unfold Overpass.filtersStep
  cases t.points <;> cases t.lines <;>
    simp [hp, Finset.subset_union_right]

/-- A polygon theme of the list contributes its parts to both `ways`
and `relations` of the Overpass fold. -/
lemma overpass_poly_mem_foldl (l : List Theme)
    (acc : Finset String × Finset String × Finset String) (t : Theme)
    (ht : t ∈ l) (hp : t.polygons = true) :
    (Overpass.parts t.matcher).toFinset ⊆ (l.foldl Overpass.filtersStep acc).2.1 ∧
      (Overpass.parts t.matcher).toFinset ⊆ (l.foldl Overpass.filtersStep acc).2.2 := by
  induction l generalizing acc with
  | nil => cases ht
  | cons s ts ih =>
      rcases List.mem_cons.mp ht with h | h
      · subst h
        have h1 := overpass_filtersStep_poly_subset acc t hp
        have h2 := overpass_foldl_subset ts (Overpass.filtersStep acc t)
        simpa using ⟨h1.1.trans h2.2.1, h1.2.trans h2.2.2⟩
      · simpa using ih (Overpass.filtersStep acc s) h

/-- The two query-service compilers produce identical fragments. -/
lemma hootenanny_parts_eq_overpass (e : Expr) : Hootenanny.parts e = Overpass.parts e := by
  induction e <;> simp [Hootenanny.parts, Overpass.parts, *]

/-- The two query-service per-theme fold steps coincide. -/
lemma hootenanny_filtersStep_eq_overpass :
    Hootenanny.filtersStep = Overpass.filtersStep := by
  funext acc t
  unfold Hootenanny.filtersStep Overpass.filtersStep
  rw [hootenanny_parts_eq_overpass]

/-- The two query-service aggregations coincide on every mapping. -/
lemma hootenanny_filters_eq_overpass (m : Mapping) :
    Hootenanny.filters m = Overpass.filters m := by
  unfold Hootenanny.filters Overpass.filters
  rw [hootenanny_filtersStep_eq_overpass]

/-- Looking up the key just written finds the new value. -/
lemma lookup_dictSet_self (d : TagDict) (k : String) (v : List String) :
    (dictSet d k v).lookup k = some v := by
  induction d with
  | nil => simp [dictSet]
  | cons kv rest ih =>
      obtain ⟨a, b⟩ := kv
      by_cases h : a = k
      · simp [dictSet, h, List.lookup]
      · have hba : (k == a) = false := beq_eq_false_iff_ne.mpr (Ne.symm h)
        simp [dictSet, h, ih, List.lookup, hba]

/-- Writing one key leaves every other key's binding unchanged. -/
lemma lookup_dictSet_ne (d : TagDict) (k k' : String) (v : List String) (h : k ≠ k') :
    (dictSet d k' v).lookup k = d.lookup k := by
  have hkk : (k == k') = false := beq_eq_false_iff_ne.mpr h
  induction d with
  | nil => simp [dictSet, List.lookup, hkk]
  | cons kv rest ih =>
      obtain ⟨a, b⟩ := kv
      by_cases hk : a = k'
      · subst hk
        simp [dictSet, List.lookup, hkk]
      · simp [dictSet, hk, ih, List.lookup]

/-- Once a key's polygon filter value is `[]`, any later update — to any
key, with any value — leaves it `[]`. -/
lemma poly_update_sticky (d : TagDict) (k k' : String) (v : List String)
    (h : d.lookup k = some []) :
    (Galaxy.poly_update d (k', v)).lookup k = some [] := by
  unfold Galaxy.poly_update
  by_cases hk : k = k'
  · subst hk
    simp only [h]
    simp [h]
  · cases hd : d.lookup k' with
    | none => simpa [hd, lookup_dictSet_ne d k k' v hk] using h
    | some old =>
        by_cases ho : old = []
        · simp [hd, ho, h]
        · by_cases hv : v = []
          · simp [hd, ho, hv, lookup_dictSet_ne d k k' [] hk, h]
          · simp [hd, ho, hv, lookup_dictSet_ne d k k' (old ++ v) hk, h]

/-- An incoming `[]` (the `notnull` wildcard) always leaves the key's
polygon filter value `[]`, wiping previously accumulated values. -/
lemma poly_update_wipe (d : TagDict) (k : String) :
    (Galaxy.poly_update d (k, [])).lookup k = some [] := by
  unfold Galaxy.poly_update
  cases hd : d.lookup k with
  | none => simp [hd, lookup_dictSet_self]
  | some old =>
      by_cases ho : old = []
      · simp [hd, ho]
      · simp [hd, ho, lookup_dictSet_self]

end Lemmas

section Claims

/-- C3 counterexample: the remote JSON (Galaxy) compiler does not return
one mapping entry for a `NotEquals` node — its `'!='` branch is `pass`,
so `parts` returns Python `None` (modelled `none`) instead of a
single-fragment list. -/
theorem c3_counterexample : Galaxy.parts (.ne "building" "yes") = none := rfl

/-- C3 (amended): for every `Equals(key, value)` all four compilers
return exactly one fragment encoding `key = value`, and for
`NotEquals(key, value)` the local-extractor, Overpass-QL and
translation-engine compilers return exactly one fragment encoding
`key != value`; the remote JSON (Galaxy) compiler returns one
`(key, [value])` entry for `Equals` but returns `None` (no fragment
list at all) for `NotEquals`. -/
theorem c3_equals_notequals_fragments (k v : String) :
    OsmiumTool.parts (.eq k v) = .ok [k ++ "=" ++ v] ∧
    OsmiumTool.parts (.ne k v) = .ok [k ++ "!=" ++ v] ∧
    Overpass.parts (.eq k v) = ["['" ++ k ++ "'='" ++ v ++ "']"] ∧
    Overpass.parts (.ne k v) = ["['" ++ k ++ "'!='" ++ v ++ "']"] ∧
    Hootenanny.parts (.eq k v) = ["['" ++ k ++ "'='" ++ v ++ "']"] ∧
    Hootenanny.parts (.ne k v) = ["['" ++ k ++ "'!='" ++ v ++ "']"] ∧
    Galaxy.parts (.eq k v) = some [(k, [v])] ∧
    Galaxy.parts (.ne k v) = none :=
  ⟨rfl, rfl, rfl, rfl, rfl, rfl, rfl, rfl⟩

/-- C4: for every relational `Comparison` operator and for `NotNull`,
the local-extractor compiler raises (`ValueError`, the
unsupported-operator error) instead of returning fragments, while the
Overpass-QL and translation-engine compilers return the single
key-presence fragment `['key']` and the remote JSON compiler returns
the single `(key, [])` entry. -/
theorem c4_comparison_notnull_policy (op : CmpOp) (k : String) :
    OsmiumTool.parts (.cmp op k) = .error (op.token ++ " where clause not supported") ∧
    OsmiumTool.parts (.notnull k) = .error "notnull where clause not supported" ∧
    Overpass.parts (.cmp op k) = ["['" ++ k ++ "']"] ∧
    Overpass.parts (.notnull k) = ["['" ++ k ++ "']"] ∧
    Hootenanny.parts (.cmp op k) = ["['" ++ k ++ "']"] ∧
    Hootenanny.parts (.notnull k) = ["['" ++ k ++ "']"] ∧
    Galaxy.parts (.cmp op k) = some [(k, [])] ∧
    Galaxy.parts (.notnull k) = some [(k, [])] :=
  ⟨rfl, rfl, rfl, rfl, rfl, rfl, rfl, rfl⟩

/-- C9: the translation-engine (Hootenanny) compiler is extensionally
equal to the Overpass-QL compiler — identical fragment sequences on
every expression and identical `(nodes, ways, relations)` sets on every
mapping. -/
theorem c9_hootenanny_mirrors_overpass :
    (∀ e : Expr, Hootenanny.parts e = Overpass.parts e) ∧
    (∀ m : Mapping, Hootenanny.filters m = Overpass.filters m) :=
  ⟨hootenanny_parts_eq_overpass, hootenanny_filters_eq_overpass⟩

/-- C10: the remote extraction-API non-HDX fetch needs a non-null
mapping: with `mapping = None` the request-body construction reads the
unassigned names `osmTags`/`columns` (a `NameError`); with any mapping
supplied, no code path reaches that undefined-variable read. -/
theorem c10_mapping_required :
    (∀ hostname file_name output_format : String,
      Galaxy.fetch_request_body ⟨hostname, none, file_name⟩ output_format =
        .error Galaxy.FetchError.nameError) ∧
    (∀ (hostname file_name output_format : String) (m : Mapping),
      Galaxy.fetch_request_body ⟨hostname, some m, file_name⟩ output_format ≠
        .error Galaxy.FetchError.nameError) := by
  constructor
  · intro h f o
    rfl
  · intro h f o m
    unfold Galaxy.fetch_request_body
    cases hd : Galaxy.filters m <;> simp [hd]

/-- C7: every backend compiles `And(A, B)` and `Or(A, B)` to the same
result; the fragment sequence is the concatenation of the subtrees'
sequences, hence the fragment set is the union of the subtrees' sets
regardless of nesting (for the fallible local-extractor and JSON
compilers, whenever the subtrees compile). -/
theorem c7_and_or_fragment_union (a b c : Expr) :
    OsmiumTool.parts (.and a b) = OsmiumTool.parts (.or a b) ∧
    Overpass.parts (.and a b) = Overpass.parts (.or a b) ∧
    Hootenanny.parts (.and a b) = Hootenanny.parts (.or a b) ∧
    Galaxy.parts (.and a b) = Galaxy.parts (.or a b) ∧
    Overpass.parts (.and a b) = Overpass.parts a ++ Overpass.parts b ∧
    (Overpass.parts (.and a b)).toFinset =
      (Overpass.parts a).toFinset ∪ (Overpass.parts b).toFinset ∧
    (Overpass.parts (.and (.and a b) c)).toFinset =
      (Overpass.parts (.and a (.and b c))).toFinset ∧
    (Overpass.parts (.or (.and a b) c)).toFinset =
      (Overpass.parts (.and a (.or b c))).toFinset ∧
    (∀ la lb, OsmiumTool.parts a = .ok la → OsmiumTool.parts b = .ok lb →
      OsmiumTool.parts (.and a b) = .ok (la ++ lb) ∧
        (la ++ lb).toFinset = la.toFinset ∪ lb.toFinset) ∧
    (∀ la lb, Galaxy.parts a = some la → Galaxy.parts b = some lb →
      Galaxy.parts (.and a b) = some (la ++ lb)) := by
  refine ⟨rfl, rfl, rfl, rfl, rfl,
    by simp [Overpass.parts, List.toFinset_append],
    by simp [Overpass.parts, List.toFinset_append, Finset.union_assoc],
    by simp [Overpass.parts, List.toFinset_append, Finset.union_assoc],
    ?_, ?_⟩
  · intro la lb ha hb
    constructor
    · simp only [OsmiumTool.parts, ha, hb]
      rfl
    · simp
  · intro la lb ha hb
    simp only [Galaxy.parts, ha, hb]
    rfl

/-- C7 witness: the concatenation equations at concrete inputs, with
the success hypotheses discharged. -/
theorem c7_witness :
    OsmiumTool.parts (.and (.eq "a" "b") (.eq "c" "d")) = .ok (["a=b"] ++ ["c=d"]) ∧
    (["a=b"] ++ ["c=d"]).toFinset = ["a=b"].toFinset ∪ ["c=d"].toFinset :=
  (c7_and_or_fragment_union (.eq "a" "b") (.eq "c" "d") (.eq "e" "f")).2.2.2.2.2.2.2.2.1
    ["a=b"] ["c=d"] rfl rfl

/-- C1 counterexample: a theme with only polygons enabled yields no
`w/` fragment from the local-extractor compiler — `get_element_filter`
maps polygons to the `r/` (relation) prefix alone. -/
theorem c1_counterexample :
    "w/building=yes" ∉
      OsmiumTool.get_element_filter (themeEq false false true "building" "yes")
        "building=yes" := by
  decide

/-- C1 (amended): the local-extractor compiler classifies strictly
per flag — `n/` fragments exactly for points, `w/` exactly for lines,
and polygons contribute only the `r/` fragment (no `w/` fragment);
the Overpass-QL and translation-engine aggregations do put a polygon
theme's fragments in both the way and the relation set. -/
theorem c1_polygon_element_kinds (t : Theme) (part : String) (m : Mapping)
    (ht : t ∈ m.themes) (hp : t.polygons = true) :
    (("n/" ++ part) ∈ OsmiumTool.get_element_filter t part ↔ t.points = true) ∧
    (("w/" ++ part) ∈ OsmiumTool.get_element_filter t part ↔ t.lines = true) ∧
    ("r/" ++ part) ∈ OsmiumTool.get_element_filter t part ∧
    (∀ p ∈ Overpass.parts t.matcher,
      p ∈ (Overpass.filters m).2.1 ∧ p ∈ (Overpass.filters m).2.2) ∧
    (∀ p ∈ Hootenanny.parts t.matcher,
      p ∈ (Hootenanny.filters m).2.1 ∧ p ∈ (Hootenanny.filters m).2.2) := by
  have hnw := append_ne_of_prefix_ne 'n' 'w' (by decide) "n/" "w/" rfl rfl part
  have hnr := append_ne_of_prefix_ne 'n' 'r' (by decide) "n/" "r/" rfl rfl part
  have hwn := append_ne_of_prefix_ne 'w' 'n' (by decide) "w/" "n/" rfl rfl part
  have hwr := append_ne_of_prefix_ne 'w' 'r' (by decide) "w/" "r/" rfl rfl part
  have hover := overpass_poly_mem_foldl m.themes (∅, ∅, ∅) t ht hp
  refine ⟨?_, ?_, ?_, ?_, ?_⟩
  · unfold OsmiumTool.get_element_filter
    cases hpt : t.points <;> cases hl : t.lines <;> simp [hp, hnw, hnr]
  · unfold OsmiumTool.get_element_filter
    cases hpt : t.points <;> cases hl : t.lines <;> simp [hp, hwn, hwr]
  · unfold OsmiumTool.get_element_filter
    simp [hp]
  · intro p hp'
    unfold Overpass.filters
    exact ⟨hover.1 (List.mem_toFinset.mpr hp'), hover.2 (List.mem_toFinset.mpr hp')⟩
  · intro p hp'
    rw [hootenanny_parts_eq_overpass] at hp'
    rw [hootenanny_filters_eq_overpass]
    unfold Overpass.filters
    exact ⟨hover.1 (List.mem_toFinset.mpr hp'), hover.2 (List.mem_toFinset.mpr hp')⟩

/-- C1 witness: the amended classification at a concrete polygon-only
theme inside a one-theme mapping. -/
theorem c1_witness :
    "r/building=yes" ∈
      OsmiumTool.get_element_filter (themeEq false false true "building" "yes")
        "building=yes" ∧
    "['building'='yes']" ∈
      (Overpass.filters ⟨[themeEq false false true "building" "yes"]⟩).2.2 := by
  have h := c1_polygon_element_kinds (themeEq false false true "building" "yes")
    "building=yes" ⟨[themeEq false false true "building" "yes"]⟩ (by decide) rfl
  exact ⟨h.2.2.1, (h.2.2.2.1 "['building'='yes']" (by decide)).2⟩

/-- C2 counterexample: for the point kind the accumulated value list
does not obey wildcard absorption — the sequence of updates
`["a"]`, `[]`, `["b"]` on one key across three point themes ends as
`["a", "b"]`, not `[]` (the point/line branches of `Galaxy.filters`
only append). -/
theorem c2_counterexample :
    (Galaxy.filters ⟨[themeEq true false false "building" "a",
        themeNotNull true false false "building",
        themeEq true false false "building" "b"]⟩).map
      (fun acc => acc.point_filter.lookup "building") = some (some ["a", "b"]) ∧
    (["a", "b"] : List String) ≠ [] := by
  constructor
  · decide
  · decide

/-- C2 (amended): the wildcard-absorption rule holds for the polygon
filter dictionary: once a key's value is `[]` every later update leaves
it `[]`, an incoming `[]` wipes previously accumulated values, and both
concrete orders `["a"], [], ["b"]` and `["a"], ["b"], []` across polygon
themes end with `[]`; the point and line dictionaries instead append
successive values. -/
theorem c2_wildcard_absorption_polygon :
    (∀ (d : TagDict) (k k' : String) (v : List String), d.lookup k = some [] →
      (Galaxy.poly_update d (k', v)).lookup k = some []) ∧
    (∀ (d : TagDict) (k : String), (Galaxy.poly_update d (k, [])).lookup k = some []) ∧
    (Galaxy.filters ⟨[themeEq false false true "building" "a",
        themeNotNull false false true "building",
        themeEq false false true "building" "b"]⟩).map
      (fun acc => acc.poly_filter.lookup "building") = some (some []) ∧
    (Galaxy.filters ⟨[themeEq false false true "building" "a",
        themeEq false false true "building" "b",
        themeNotNull false false true "building"]⟩).map
      (fun acc => acc.poly_filter.lookup "building") = some (some []) :=
  ⟨fun d k k' v h => poly_update_sticky d k k' v h,
    fun d k => poly_update_wipe d k, by decide, by decide⟩

/-- C2 witness: stickiness applied at a concrete dict with the
hypothesis discharged. -/
theorem c2_witness :
    ([("building", ([] : List String))] : TagDict).lookup "building" = some [] ∧
    (Galaxy.poly_update [("building", [])] ("building", ["x"])).lookup "building" =
      some [] :=
  ⟨by decide,
    c2_wildcard_absorption_polygon.1 [("building", [])] "building" "building" ["x"]
      (by decide)⟩

/-- C5 counterexample: a mapping whose one theme enables no element
kind leaves the three filter dictionaries pairwise identical (all
empty), yet the compiled body carries separate `point`/`line`/`polygon`
entries — empty dicts are falsy, so the `all_geometry` branch is
skipped. -/
theorem c5_counterexample :
    Galaxy.fetch_request_body
        ⟨"host", some ⟨[themeEq false false false "building" "yes"]⟩, "f"⟩ "geojson" =
      .ok ⟨"f", "geojson", [], none, .per_kind [] [] [], .per_kind [] [] []⟩ ∧
    pyDictEq [] [] = true := by
  constructor
  · decide
  · decide

/-- C5 (amended): in non-HDX mode the body carries a single
`all_geometry` tag filter exactly when the three filter dictionaries
are pairwise `==` AND nonempty (truthy), and a single `all_geometry`
attribute list exactly when the three column lists coincide and are
nonempty; when the filters differ in any pair — or are identical but
empty — the body carries separate `point`/`line`/`polygon` entries,
and likewise for the column lists. -/
theorem c5_master_filter_collapse (fn fmt : String) (gt : List String)
    (pf lf gf : TagDict) (pc lc gc : List String) :
    ((pyDictEq pf lf && pyDictEq lf gf) = true → pf ≠ [] →
      (Galaxy.request_body fn fmt gt pf lf gf pc lc gc).tags = .all_geometry pf) ∧
    ((pyDictEq pf lf && pyDictEq lf gf) = false →
      (Galaxy.request_body fn fmt gt pf lf gf pc lc gc).tags = .per_kind pf lf gf) ∧
    ((pyDictEq pf lf && pyDictEq lf gf) = true → pf = [] →
      (Galaxy.request_body fn fmt gt pf lf gf pc lc gc).tags = .per_kind pf lf gf) ∧
    (pc = lc → lc = gc → pc ≠ [] →
      (Galaxy.request_body fn fmt gt pf lf gf pc lc gc).attributes = .all_geometry pc) ∧
    (¬(pc = lc ∧ lc = gc) →
      (Galaxy.request_body fn fmt gt pf lf gf pc lc gc).attributes = .per_kind pc lc gc) ∧
    (pc = [] →
      (Galaxy.request_body fn fmt gt pf lf gf pc lc gc).attributes = .per_kind pc lc gc) := by
  refine ⟨?_, ?_, ?_, ?_, ?_, ?_⟩ <;>
    · intros
      simp only [Galaxy.request_body]
      split_ifs <;> simp_all

/-- C5 witness: identical nonempty filters and columns collapse to
`all_geometry`, at a concrete input. -/
theorem c5_witness :
    (Galaxy.request_body "f" "geojson" ["point"] [("building", ["yes"])]
        [("building", ["yes"])] [("building", ["yes"])] ["building"] ["building"]
        ["building"]).tags = .all_geometry [("building", ["yes"])] ∧
    (Galaxy.request_body "f" "geojson" ["point"] [("building", ["yes"])]
        [("building", ["yes"])] [("building", ["yes"])] ["building"] ["building"]
        ["building"]).attributes = .all_geometry ["building"] :=
  ⟨(c5_master_filter_collapse "f" "geojson" ["point"] [("building", ["yes"])]
      [("building", ["yes"])] [("building", ["yes"])] ["building"] ["building"]
      ["building"]).1 (by decide) (by decide),
    (c5_master_filter_collapse "f" "geojson" ["point"] [("building", ["yes"])]
      [("building", ["yes"])] [("building", ["yes"])] ["building"] ["building"]
      ["building"]).2.2.2.1 rfl rfl (by decide)⟩

/-- C6 counterexample: an `OsmiumTool` source with `use_existing` false,
no mapping and a region at the clip threshold invokes no backend at all
— `path()` runs neither `extract` (area is not below `6e4`) nor
`tags-filter` (no mapping), refuting "invoked on every call". -/
theorem c6_counterexample :
    OsmiumTool.path ⟨"planet.osm.pbf", "out.osm.pbf", 60000, false, none⟩
      (fun _ => false) = .ok ([], "out.osm.pbf") := by
  decide

/-- C6 (amended): with an existing artifact and `use_existing` true,
all four sources return the output path with zero backend invocations;
with `use_existing` false the `OsmExpress`, `Overpass` and `Hootenanny`
sources invoke `fetch` on every call, while the `OsmiumTool` source
(without a mapping) invokes the extractor exactly when the region area
is below the clip threshold — at or above it, nothing is invoked. -/
theorem c6_use_existing_caching :
    (∀ (s : OsmExpress.Src) (isfile : String → Bool),
      isfile s.output_path = true → s.use_existing = true →
      OsmExpress.path s isfile = (0, s.output_path)) ∧
    (∀ (s : Overpass.Src) (isfile : String → Bool),
      isfile s.out_path = true → s.use_existing = true →
      Overpass.path s isfile = (0, s.out_path)) ∧
    (∀ (s : Hootenanny.Src) (isfile : String → Bool),
      isfile s.out_path = true → s.use_existing = true →
      Hootenanny.path s isfile = (0, s.out_path)) ∧
    (∀ (s : OsmiumTool.Src) (isfile : String → Bool),
      isfile s.output_path = true → s.use_existing = true →
      OsmiumTool.path s isfile = .ok ([], s.output_path)) ∧
    (∀ (s : OsmExpress.Src) (isfile : String → Bool), s.use_existing = false →
      OsmExpress.path s isfile = (1, s.output_path)) ∧
    (∀ (s : Overpass.Src) (isfile : String → Bool), s.use_existing = false →
      Overpass.path s isfile = (1, s.out_path)) ∧
    (∀ (s : Hootenanny.Src) (isfile : String → Bool), s.use_existing = false →
      Hootenanny.path s isfile = (1, s.out_path)) ∧
    (∀ (s : OsmiumTool.Src) (isfile : String → Bool),
      s.use_existing = false → s.mapping = none → s.area < 60000 →
      OsmiumTool.path s isfile = .ok ([.extract], s.output_path)) ∧
    (∀ (s : OsmiumTool.Src) (isfile : String → Bool),
      s.use_existing = false → s.mapping = none → ¬ s.area < 60000 →
      OsmiumTool.path s isfile = .ok ([], s.output_path)) := by
  refine ⟨?_, ?_, ?_, ?_, ?_, ?_, ?_, ?_, ?_⟩
  · intro s isfile h1 h2
    unfold OsmExpress.path
    simp [h1, h2]
  · intro s isfile h1 h2
    unfold Overpass.path
    simp [h1, h2]
  · intro s isfile h1 h2
    unfold Hootenanny.path
    simp [h1, h2]
  · intro s isfile h1 h2
    unfold OsmiumTool.path
    simp [h1, h2]
  · intro s isfile h
    unfold OsmExpress.path
    simp [h]
  · intro s isfile h
    unfold Overpass.path
    simp [h]
  · intro s isfile h
    unfold Hootenanny.path
    simp [h]
  · intro s isfile h hm ha
    unfold OsmiumTool.path
    simp [h, hm, ha]
  · intro s isfile h hm ha
    unfold OsmiumTool.path
    simp [h, hm, ha]

/-- C6 witness: the cached short circuit and the threshold-region
no-invocation run at concrete sources. -/
theorem c6_witness :
    OsmExpress.path ⟨"osmx", "db", "o.pbf", true⟩ (fun _ => true) = (0, "o.pbf") ∧
    OsmiumTool.path ⟨"p.pbf", "o2.pbf", 70000, false, none⟩ (fun _ => false) =
      .ok ([], "o2.pbf") :=
  ⟨c6_use_existing_caching.1 ⟨"osmx", "db", "o.pbf", true⟩ (fun _ => true) rfl rfl,
    c6_use_existing_caching.2.2.2.2.2.2.2.2 ⟨"p.pbf", "o2.pbf", 70000, false, none⟩
      (fun _ => false) rfl rfl (by decide)⟩

/-- C8: on a cache miss with a mapping configured, a region area below
`6e4` runs the clip (`extract`) first and feeds the already-clipped
output into `tags-filter`; at or above the threshold the clip is
skipped and `tags-filter` reads the original source file. -/
theorem c8_clip_threshold (s : OsmiumTool.Src) (isfile : String → Bool) (m : Mapping)
    (fl : Finset String)
    (hnc : (isfile s.output_path && s.use_existing) = false)
    (hm : s.mapping = some m) (hf : OsmiumTool.filters m = .ok fl) :
    (s.area < 60000 →
      OsmiumTool.path s isfile =
        .ok ([.extract, .tags_filter s.output_path fl], s.output_path)) ∧
    (¬ s.area < 60000 →
      OsmiumTool.path s isfile =
        .ok ([.tags_filter s.source_path fl], s.output_path)) := by
  constructor
  · intro ha
    unfold OsmiumTool.path
    simp [hnc, hm, hf, ha, OsmiumTool.tags_filter_source]
  · intro ha
    unfold OsmiumTool.path
    simp [hnc, hm, hf, ha, OsmiumTool.tags_filter_source]

/-- C8 witness: a small region is clipped first and then filtered from
the clipped output, at a concrete source and mapping. -/
theorem c8_witness :
    OsmiumTool.path ⟨"planet.osm.pbf", "out.osm.pbf", 1, false,
        some ⟨[themeEq true false false "building" "yes"]⟩⟩ (fun _ => false) =
      .ok ([.extract, .tags_filter "out.osm.pbf" {"n/building=yes"}], "out.osm.pbf") :=
  (c8_clip_threshold ⟨"planet.osm.pbf", "out.osm.pbf", 1, false,
      some ⟨[themeEq true false false "building" "yes"]⟩⟩ (fun _ => false)
      ⟨[themeEq true false false "building" "yes"]⟩ {"n/building=yes"} rfl rfl
      (by simp [OsmiumTool.filters, OsmiumTool.parts, OsmiumTool.get_element_filter,
        themeEq])).1 (by decide)

end Claims

end OsmExport
